import Mathlib

/-!
# Vol-Server: shallow embedding of the request handlers

This file embeds the request-handling logic of the Vol-Server repository
(an Express CRUD service for volunteer posts and applications backed by a
MongoDB store) and proves the frozen specification claims about it.

The repository contains several near-duplicate variants of the service:
`src/index.js` (the most developed variant, header-based ownership),
`src/api/index.js` (JWT-cookie variant), and further iterations in
`src/unnamed/part_000` … `part_005`.  Where variants disagree on the
behaviour a claim talks about, each relevant variant is embedded under its
own name (suffixed `Part000`, `Part002`, `Api`, …).

Modelling conventions:
* A MongoDB collection is an association list; `findOne`/`updateOne`/
  `deleteOne` act on the first entry whose `_id` key matches, exactly as
  the driver does for an `_id` filter.
* JS values that may be `undefined` are `Option`s; JS truthiness tests
  (`!token`, `!origin`, `!userEmail`) are false exactly on `none` and on
  the empty string, which is how `!` behaves on `string | undefined`.
* Machine times (`Date.now`, JWT `iat`/`exp`) are `Nat` parameters.
* A signed JWT is modelled abstractly as its payload (`email`, `exp`)
  together with the key it was signed with; signature verification
  succeeds exactly when the verifying key equals the signing key and the
  token is not expired.
-/

namespace VolServer

/-- A stored volunteer post.  The seven content fields are optional:
a document inserted or rewritten from a request body holds whatever the
body supplied, and an absent body field is written as a cleared (`none`)
value.  `organizerEmail` and `createdAt` are the server-controlled
ownership and provenance fields. -/
structure VolunteerPost where
  organizerEmail : String
  title : Option String
  description : Option String
  category : Option String
  location : Option String
  volunteersNeeded : Option Int
  deadline : Option String
  thumbnail : Option String
  createdAt : Nat
  updatedAt : Nat
deriving Repr, DecidableEq

/-- The request body of a PUT `/volunteer/:id`: the seven client-supplied
content fields, each possibly absent (`req.body.x` is `undefined`). -/
structure ReqBody where
  title : Option String
  description : Option String
  category : Option String
  location : Option String
  volunteersNeeded : Option Int
  deadline : Option String
  thumbnail : Option String
deriving Repr, DecidableEq

/-- The `volunteer` collection: documents keyed by their `_id` string. -/
abbrev VolunteerStore := List (String × VolunteerPost)

/-- An application document (the fields the claims mention). -/
structure Application where
  userEmail : String
  volunteerPostId : String
  status : String
deriving Repr, DecidableEq

/-- `ObjectId.isValid` of the MongoDB driver on a string argument:
true for any 12-character string (a 12-byte id) and for a 24-character
hex string. -/
def objectIdIsValid (s : String) : Bool :=
  s.length == 12 ||
    (s.length == 24 && s.toList.all fun c =>
      c.isDigit || ('a' ≤ c && c ≤ 'f') || ('A' ≤ c && c ≤ 'F'))

/-- `findOne({ _id })`: the first document whose key matches. -/
def findPost (db : VolunteerStore) (id : String) : Option VolunteerPost :=
  (db.find? fun q => q.1 == id).map (·.2)

/-- `updateOne({ _id }, …)`: rewrite the first document whose key
matches; a non-matching update leaves the store unchanged. -/
def updateFirst (db : VolunteerStore) (id : String)
    (f : VolunteerPost → VolunteerPost) : VolunteerStore :=
  match db with
  | [] => []
  | q :: rest =>
    if q.1 == id then (q.1, f q.2) :: rest else q :: updateFirst rest id f

/-- `deleteOne({ _id })`: drop the first document whose key matches. -/
def deleteFirst (db : VolunteerStore) (id : String) : VolunteerStore :=
  match db with
  | [] => []
  | q :: rest => if q.1 == id then rest else q :: deleteFirst rest id

/-- The JS comparison `volunteer.volunteersNeeded <= 0`: false when the
field is `undefined` (a NaN comparison), otherwise the numeric test. -/
def jsLeZero : Option Int → Bool
  | some n => n ≤ 0
  | none => false

/-- `$inc: { volunteersNeeded: d }`: increments the field, creating it
with value `d` when absent (MongoDB `$inc` on a missing field). -/
def incNeeded (d : Int) (p : VolunteerPost) : VolunteerPost :=
  { p with volunteersNeeded := some (p.volunteersNeeded.getD 0 + d) }

/-- `PATCH /volunteer/:id/decrease` of `src/index.js` (lines 253–288):
reject malformed ids with 400, missing posts with 404, a count already
`<= 0` with 400, and otherwise `$inc` the count by −1 and stamp
`updatedAt`. -/
def decreaseHandler (now : Nat) (db : VolunteerStore) (id : String) :
    Nat × VolunteerStore :=
  if objectIdIsValid id then
    match findPost db id with
    | none => (404, db)
    | some v =>
      if jsLeZero v.volunteersNeeded then (400, db)
      else
        (200, updateFirst db id fun p => { incNeeded (-1) p with updatedAt := now })
  else (400, db)

/-- `PATCH /volunteer/:id/decrease` of `src/unnamed/part_002`
(lines 98–108): no guard at all — `new ObjectId(id)` throws on a
malformed id (caught as 500) and otherwise the count is decremented
unconditionally and the update result is returned with 200. -/
def decreaseHandlerPart002 (db : VolunteerStore) (id : String) :
    Nat × VolunteerStore :=
  if objectIdIsValid id then (200, updateFirst db id (incNeeded (-1)))
  else (500, db)

/-- `PUT /volunteer/:id` of `src/index.js` (lines 165–214): 400 on a
malformed id, 401 on a missing/empty `x-user-email` header, 404 on a
missing post, 403 when the header does not equal the stored
`organizerEmail`, and otherwise `$set` of all seven content fields from
the body plus a fresh `updatedAt`. -/
def putHandler (now : Nat) (db : VolunteerStore) (id : String)
    (header : Option String) (body : ReqBody) : Nat × VolunteerStore :=
  if objectIdIsValid id then
    match header with
    | none => (401, db)
    | some userEmail =>
      if userEmail = "" then (401, db)
      else
        match findPost db id with
        | none => (404, db)
        | some post =>
          if post.organizerEmail ≠ userEmail then (403, db)
          else
            (200, updateFirst db id fun p =>
              { p with
                title := body.title
                description := body.description
                category := body.category
                location := body.location
                volunteersNeeded := body.volunteersNeeded
                deadline := body.deadline
                thumbnail := body.thumbnail
                updatedAt := now })
  else (400, db)

/-- `DELETE /volunteer/:id` of `src/index.js` (lines 217–250): same
gate order as PUT, then `deleteOne`. -/
def deleteHandler (db : VolunteerStore) (id : String)
    (header : Option String) : Nat × VolunteerStore :=
  if objectIdIsValid id then
    match header with
    | none => (401, db)
    | some userEmail =>
      if userEmail = "" then (401, db)
      else
        match findPost db id with
        | none => (404, db)
        | some post =>
          if post.organizerEmail ≠ userEmail then (403, db)
          else (200, deleteFirst db id)
  else (400, db)

/-- `GET /volunteer/:id` of `src/index.js` (lines 131–150): 400 on a
malformed id, 404 when absent, otherwise the stored post. -/
def getVolunteerHandler (db : VolunteerStore) (id : String) :
    Nat × Option VolunteerPost :=
  if objectIdIsValid id then
    match findPost db id with
    | none => (404, none)
    | some v => (200, some v)
  else (400, none)

/-- `GET /volunteer/:id` of `src/unnamed/part_000` (lines 85–92): no
id-format guard — `new ObjectId(id)` throws on a malformed id and the
`catch` answers 500; otherwise 404 when absent and the post when
present. -/
def getVolunteerHandlerPart000 (db : VolunteerStore) (id : String) :
    Nat × Option VolunteerPost :=
  if objectIdIsValid id then
    match findPost db id with
    | none => (404, none)
    | some v => (200, some v)
  else (500, none)

/-- A signed session token, modelled as its payload together with the
key it was signed with (`jwt.sign({ email }, secret, { expiresIn: '1d' })`
produces `exp = iat + 86400`); `jwt.verify(token, key)` succeeds exactly
when `key` equals the signing key and the token is not yet expired. -/
structure Token where
  email : String
  exp : Nat
  signedWith : String
deriving Repr, DecidableEq

/-- The outcome of an Express middleware: either halt the request with a
status, or pass control to the handler with the decoded email attached
(`req.user = decoded`). -/
inductive MiddlewareOutcome where
  | halt (status : Nat)
  | proceed (email : String)
deriving Repr, DecidableEq

/-- `verifyToken` of `src/api/index.js` (lines 62–71) and
`src/unnamed/part_000` (lines 36–45): no cookie → 401; a cookie whose
signature does not verify or which is expired → 403; otherwise proceed
with the decoded `email` claim. -/
def verifyTokenMiddleware (secret : String) (now : Nat)
    (cookie : Option Token) : MiddlewareOutcome :=
  match cookie with
  | none => .halt 401
  | some t =>
    if t.signedWith = secret ∧ now < t.exp then .proceed t.email
    else .halt 403

/-- `expiresIn: '1d'` of `jwt.sign`, in seconds. -/
def oneDaySeconds : Nat := 86400

/-- The cookie attributes the claims mention. -/
structure CookieOptions where
  httpOnly : Bool
  maxAgeMs : Nat
deriving Repr, DecidableEq

/-- Response of `POST /jwt`: a status and the cookie that was set, if
any. -/
structure JwtResponse where
  status : Nat
  cookie : Option (Token × CookieOptions)
deriving Repr, DecidableEq

/-- `POST /jwt` of `src/api/index.js` (lines 79–95) and
`src/unnamed/part_000` (lines 52–63): a missing (or JS-falsy, i.e.
empty) `email` in the body → 400 and no cookie; otherwise sign
`{ email }` with a one-day expiry and set it as an `httpOnly` cookie
with `maxAge: 24 * 60 * 60 * 1000`. -/
def postJwtHandler (secret : String) (now : Nat)
    (bodyEmail : Option String) : JwtResponse :=
  match bodyEmail with
  | none => ⟨400, none⟩
  | some email =>
    if email = "" then ⟨400, none⟩
    else
      ⟨200, some (⟨email, now + oneDaySeconds, secret⟩,
        ⟨true, 24 * 60 * 60 * 1000⟩)⟩

/-- `GET /applications` of `src/api/index.js` (lines 180–188): behind
`verifyToken`, then `find({ userEmail: req.user.email })`. -/
def getApplicationsHandlerApi (secret : String) (now : Nat)
    (cookie : Option Token) (apps : List Application) :
    Nat × List Application :=
  match verifyTokenMiddleware secret now cookie with
  | .halt s => (s, [])
  | .proceed email => (200, apps.filter fun a => a.userEmail == email)

/-- `GET /applications` of `src/index.js` (lines 327–335): no
`verifyToken` middleware — any cookie on the request is never read —
and `find()` with no filter returns every application in the store. -/
def getApplicationsHandlerMain (_cookie : Option Token)
    (apps : List Application) : Nat × List Application :=
  (200, apps)

/-- The module-level connection state of `src/index.js` (lines 46–49):
the `client` handle and the three cached collection handles, `none`
until initialized.  `openCount` counts how many times a `MongoClient`
was constructed and connected, so that re-opening is observable; a
handle records the `openCount` generation that created it. -/
structure DbState where
  client : Option Nat
  volunteerCollection : Option Nat
  applicationsCollection : Option Nat
  usersCollection : Option Nat
  openCount : Nat
deriving Repr, DecidableEq

/-- The state before any request: all handles unset. -/
def initialDbState : DbState :=
  ⟨none, none, none, none, 0⟩

/-- `connectToDatabase` of `src/index.js` (lines 51–69) and
`src/unnamed/part_005` (lines 49–60): `if (!client)` construct and
connect a client and cache the `volunteer`, `applications` and `users`
collection handles; otherwise fall through and return the existing
client. -/
def connectToDatabase (s : DbState) : DbState :=
  match s.client with
  | some _ => s
  | none =>
    { client := some s.openCount
      volunteerCollection := some s.openCount
      applicationsCollection := some s.openCount
      usersCollection := some s.openCount
      openCount := s.openCount + 1 }

/-- The CORS allow-list of `src/index.js` (lines 10–18). -/
def allowedOrigins : List String :=
  [ "http://localhost:5173"
  , "http://127.0.0.1:5173"
  , "http://localhost:3000"
  , "http://localhost:5000"
  , "https://volauth-8cd3a.web.app"
  , "https://vol-server-mu.vercel.app"
  , "https://vol-server-mu.vercel.app/" ]

/-- The CORS origin callback of `src/index.js` (lines 32–41):
`!origin || allowedOrigins.includes(origin)` permits the request,
anything else is rejected with an error.  `origin` is
`req.headers.origin`, so `!origin` is true when the header is absent
(`none`) and also when it is present with an empty value. -/
def corsOriginAllowed (origin : Option String) : Bool :=
  match origin with
  | none => true
  | some o => o == "" || allowedOrigins.contains o

/-- A post conforming to the spec's data model: its `volunteersNeeded`
is present and a non-negative integer. -/
def postNonneg (p : VolunteerPost) : Bool :=
  match p.volunteersNeeded with
  | some n => 0 ≤ n
  | none => false

/-- Every post in the store has a present, non-negative
`volunteersNeeded`. -/
def storeNonneg (db : VolunteerStore) : Prop :=
  ∀ q ∈ db, postNonneg q.2 = true

/-- A sequence of `PATCH /volunteer/:id/decrease` requests (at ids
`ids`, in order) against the `src/index.js` handler, keeping only the
evolving store. -/
def runDecreases (now : Nat) (db : VolunteerStore) (ids : List String) :
    VolunteerStore :=
  match ids with
  | [] => db
  | i :: rest => runDecreases now (decreaseHandler now db i).2 rest

/-! ### Concrete fixtures for witnesses and counterexamples -/

/-- A well-formed 24-hex-character ObjectId string. -/
def oid1 : String := "aaaaaaaaaaaaaaaaaaaaaaaa"

/-- A second well-formed ObjectId string. -/
def oid2 : String := "bbbbbbbbbbbbbbbbbbbbbbbb"

/-- A post whose `volunteersNeeded` has reached 0. -/
def zeroPost : VolunteerPost :=
  ⟨"org@example.com", some "Beach cleanup", some "Pick up litter",
    some "environment", some "Cox's Bazar", some 0, some "2026-01-01",
    some "thumb.png", 5, 5⟩

/-- A post with three volunteer slots left. -/
def samplePost : VolunteerPost :=
  ⟨"org@example.com", some "Tree planting", some "Plant saplings",
    some "environment", some "Dhaka", some 3, some "2026-02-01",
    some "tree.png", 7, 7⟩

/-- A request body that supplies none of the seven content fields. -/
def emptyBody : ReqBody := ⟨none, none, none, none, none, none, none⟩

/-- An application belonging to bob. -/
def bobApplication : Application :=
  ⟨"bob@example.com", "post-1", "requested"⟩

/-- An application belonging to alice. -/
def aliceApplication : Application :=
  ⟨"alice@example.com", "post-2", "approved"⟩

/-- A token for alice signed with the server secret, expiring at 86400. -/
def aliceToken : Token := ⟨"alice@example.com", 86400, "topsecret"⟩

end VolServer

namespace VolServer

/-! ### Store lemmas -/

/-- A found post is a member of the store, under its queried id. -/
theorem findPost_mem {db : VolunteerStore} {id : String}
    {v : VolunteerPost} (h : findPost db id = some v) : (id, v) ∈ db := by
  unfold findPost at h
  cases hf : db.find? (fun q => q.1 == id) with
  | none => rw [hf] at h; simp at h
  | some q =>
    rw [hf] at h
    simp at h
    have hm := List.mem_of_find?_eq_some hf
    have hq1 : q.1 = id := by
      have hp := List.find?_some hf
      simpa using hp
    have hqv : q = (id, v) := by
      cases q
      simp only [Prod.mk.injEq]
      exact ⟨hq1, h⟩
    exact hqv ▸ hm

/-- `updateOne` rewrites exactly the document `findOne` returns. -/
theorem findPost_updateFirst (db : VolunteerStore) (id : String)
    (f : VolunteerPost → VolunteerPost) :
    findPost (updateFirst db id f) id = (findPost db id).map f := by
  induction db with
  | nil => rfl
  | cons q rest ih =>
    by_cases h : q.1 == id
    · simp [updateFirst, findPost, h, List.find?]
    · unfold updateFirst
      rw [if_neg (by simpa using h)]
      simpa [findPost, List.find?, h] using ih

/-- Every document of an updated store is either an untouched document
of the original store or the image under `f` of the document `findOne`
would return. -/
theorem mem_updateFirst {db : VolunteerStore} {id : String}
    {f : VolunteerPost → VolunteerPost} {q : String × VolunteerPost}
    (hq : q ∈ updateFirst db id f) :
    q ∈ db ∨ ∃ v, findPost db id = some v ∧ q = (id, f v) := by
  induction db with
  | nil => simp [updateFirst] at hq
  | cons p rest ih =>
    unfold updateFirst at hq
    by_cases h : p.1 == id
    · rw [if_pos h] at hq
      rcases List.mem_cons.mp hq with heq | hmem
      · right
        refine ⟨p.2, ?_, ?_⟩
        · simp [findPost, List.find?, h]
        · have hp1 : p.1 = id := by simpa using h
          rw [heq, hp1]
      · exact Or.inl (List.mem_cons_of_mem _ hmem)
    · rw [if_neg h] at hq
      rcases List.mem_cons.mp hq with heq | hmem
      · exact Or.inl (heq ▸ List.mem_cons_self _ _)
      · rcases ih hmem with h1 | ⟨v, hv, hq2⟩
        · exact Or.inl (List.mem_cons_of_mem _ h1)
        · right
          refine ⟨v, ?_, hq2⟩
          simpa [findPost, List.find?, h] using hv

/-- One `decrease` request preserves non-negativity of every stored
`volunteersNeeded`. -/
theorem storeNonneg_decreaseHandler (now : Nat) (db : VolunteerStore)
    (id : String) (h : storeNonneg db) :
    storeNonneg (decreaseHandler now db id).2 := by
  unfold decreaseHandler
  split
  · split
    next hfind => exact h
    next v hfind =>
      split
      next hz => exact h
      next hz =>
        intro q hq
        rcases mem_updateFirst hq with hmem | ⟨w, hw, hqw⟩
        · exact h q hmem
        · rw [hfind] at hw
          injection hw with hw
          subst hw
          subst hqw
          have hv : postNonneg v = true := h (id, v) (findPost_mem hfind)
          cases hn : v.volunteersNeeded with
          | none => simp [postNonneg, hn] at hv
          | some n =>
            simp only [postNonneg, hn, decide_eq_true_eq] at hv
            simp only [jsLeZero, hn, decide_eq_true_eq] at hz
            simp only [postNonneg, incNeeded, hn, Option.getD_some,
              decide_eq_true_eq]
            omega
  · exact h

/-- Any sequence of `decrease` requests preserves non-negativity. -/
theorem storeNonneg_runDecreases (now : Nat) (db : VolunteerStore)
    (ids : List String) (h : storeNonneg db) :
    storeNonneg (runDecreases now db ids) := by
  induction ids generalizing db with
  | nil => exact h
  | cons i rest ih =>
    exact ih _ (storeNonneg_decreaseHandler now db i h)

/-- Once the client handle is set, `connectToDatabase` is the
identity. -/
theorem connectToDatabase_fixed (s : DbState) (hs : s.client.isSome) :
    connectToDatabase s = s := by
  unfold connectToDatabase
  cases h : s.client with
  | none => rw [h] at hs; simp at hs
  | some g => rfl

/-- `connectToDatabase` always leaves the client handle set. -/
theorem connectToDatabase_isSome (s : DbState) :
    (connectToDatabase s).client.isSome := by
  unfold connectToDatabase
  cases h : s.client with
  | none => rfl
  | some g => rw [h]; simp

/-! ### Claims -/

/-- **C1**, counterexample.  The `PATCH /volunteer/:id/decrease` of
`src/unnamed/part_002` (one of the two implementations the claim is
about) decrements unconditionally: on a post whose stored
`volunteersNeeded` is already 0 it answers 200 — not BadRequest 400 —
and rewrites the stored value to −1, below zero. -/
theorem decreasePart002_zero_not_rejected :
    findPost [(oid1, zeroPost)] oid1 = some zeroPost ∧
    zeroPost.volunteersNeeded = some 0 ∧
    (decreaseHandlerPart002 [(oid1, zeroPost)] oid1).1 = 200 ∧
    (decreaseHandlerPart002 [(oid1, zeroPost)] oid1).1 ≠ 400 ∧
    findPost (decreaseHandlerPart002 [(oid1, zeroPost)] oid1).2 oid1 =
      some { zeroPost with volunteersNeeded := some (-1) } := by
  refine ⟨by decide, by decide, by decide, by decide, by decide⟩

/-- **C1** (amended): in the guarded variants (`src/index.js`
`PATCH /volunteer/:id/decrease`; likewise `part_005`), a decrease
request on a post whose stored `volunteersNeeded` is 0 fails with
BadRequest 400 and leaves the store unchanged, and a store all of whose
posts carry a non-negative `volunteersNeeded` keeps that invariant
under any sequence of decrease requests. -/
theorem decrease_zero_rejected_and_invariant
    (now : Nat) (db : VolunteerStore) (id : String) (ids : List String)
    (v : VolunteerPost) (hfind : findPost db id = some v)
    (hzero : v.volunteersNeeded = some 0) (hinv : storeNonneg db) :
    decreaseHandler now db id = (400, db) ∧
      storeNonneg (runDecreases now db ids) := by
  constructor
  · unfold decreaseHandler
    by_cases hid : objectIdIsValid id
    · rw [if_pos hid, hfind]
      simp [jsLeZero, hzero]
    · rw [if_neg hid]
  · exact storeNonneg_runDecreases now db ids hinv

/-- **C1** witness: the amended theorem applied to a one-post store at
zero, followed by two further decrease requests. -/
theorem decrease_zero_rejected_and_invariant_witness :
    decreaseHandler 9 [(oid1, zeroPost)] oid1 = (400, [(oid1, zeroPost)]) ∧
      storeNonneg (runDecreases 9 [(oid1, zeroPost)] [oid1, oid1]) :=
  decrease_zero_rejected_and_invariant 9 [(oid1, zeroPost)] oid1 [oid1, oid1]
    zeroPost (by decide) (by decide) (by unfold storeNonneg; decide)

/-- **C2**: on an existing post, a PUT or DELETE `/volunteer/:id` of
`src/index.js` whose `x-user-email` header is present but differs from
the stored `organizerEmail` answers Forbidden 403 and returns the store
unchanged: no field is modified and no record deleted. -/
theorem put_delete_foreign_forbidden
    (now : Nat) (db : VolunteerStore) (id : String) (email : String)
    (body : ReqBody) (post : VolunteerPost)
    (hid : objectIdIsValid id = true) (hfind : findPost db id = some post)
    (hne : email ≠ "") (hown : post.organizerEmail ≠ email) :
    putHandler now db id (some email) body = (403, db) ∧
      deleteHandler db id (some email) = (403, db) := by
  constructor
  · simp [putHandler, hid, hne, hfind, hown]
  · simp [deleteHandler, hid, hne, hfind, hown]

/-- **C2** witness: a well-formed id, a stored post owned by
`org@example.com`, and a caller identity `mallory@example.com`. -/
theorem put_delete_foreign_forbidden_witness :
    putHandler 9 [(oid1, samplePost)] oid1 (some "mallory@example.com")
        emptyBody = (403, [(oid1, samplePost)]) ∧
      deleteHandler [(oid1, samplePost)] oid1 (some "mallory@example.com") =
        (403, [(oid1, samplePost)]) :=
  put_delete_foreign_forbidden 9 [(oid1, samplePost)] oid1
    "mallory@example.com" emptyBody samplePost (by decide) (by decide)
    (by decide) (by decide)

/-- **C3**: a PUT or DELETE `/volunteer/:id` of `src/index.js` with a
well-formed id and a present caller identity, aimed at an id with no
stored record, answers NotFound 404 — in particular not Forbidden 403 —
and leaves the store unchanged: the existence check runs before the
ownership comparison. -/
theorem put_delete_missing_notfound
    (now : Nat) (db : VolunteerStore) (id : String) (email : String)
    (body : ReqBody)
    (hid : objectIdIsValid id = true) (hne : email ≠ "")
    (hnone : findPost db id = none) :
    putHandler now db id (some email) body = (404, db) ∧
      deleteHandler db id (some email) = (404, db) := by
  constructor
  · simp [putHandler, hid, hne, hnone]
  · simp [deleteHandler, hid, hne, hnone]

/-- **C3** witness: a store holding only `oid1`, queried at the
well-formed but absent id `oid2`. -/
theorem put_delete_missing_notfound_witness :
    putHandler 9 [(oid1, samplePost)] oid2 (some "org@example.com")
        emptyBody = (404, [(oid1, samplePost)]) ∧
      deleteHandler [(oid1, samplePost)] oid2 (some "org@example.com") =
        (404, [(oid1, samplePost)]) :=
  put_delete_missing_notfound 9 [(oid1, samplePost)] oid2 "org@example.com"
    emptyBody (by decide) (by decide) (by decide)

/-- **C4**, counterexample.  `GET /applications` of `src/index.js`
(the second implementation the claim is about) carries no `verifyToken`
middleware and queries with no filter: with a valid session token for
alice on the request, the response still contains bob's application. -/
theorem applicationsMain_returns_other_users :
    verifyTokenMiddleware "topsecret" 0 (some aliceToken) =
      .proceed "alice@example.com" ∧
    (getApplicationsHandlerMain (some aliceToken) [bobApplication]).1 = 200 ∧
    bobApplication ∈
      (getApplicationsHandlerMain (some aliceToken) [bobApplication]).2 ∧
    bobApplication.userEmail ≠ "alice@example.com" := by
  refine ⟨by decide, by decide, by decide, by decide⟩

/-- **C4** (amended): in the token-protected variants
(`src/api/index.js` `GET /applications`; likewise `part_000` and
`part_004`), a request with a valid token whose claim is `email`
answers 200 with exactly the applications whose `userEmail` equals
`email`; the variants without the middleware (`src/index.js`,
`part_001`, `part_003`, `part_005`) return every stored application. -/
theorem applications_api_owner_only
    (secret : String) (now : Nat) (email : String) (exp : Nat)
    (apps : List Application) (hexp : now < exp) :
    (getApplicationsHandlerApi secret now (some ⟨email, exp, secret⟩)
        apps).1 = 200 ∧
    ∀ a : Application,
      a ∈ (getApplicationsHandlerApi secret now (some ⟨email, exp, secret⟩)
          apps).2 ↔ a ∈ apps ∧ a.userEmail = email := by
  have hv : verifyTokenMiddleware secret now (some ⟨email, exp, secret⟩) =
      .proceed email := by
    unfold verifyTokenMiddleware
    dsimp only
    rw [if_pos ⟨rfl, hexp⟩]
  constructor
  · unfold getApplicationsHandlerApi
    rw [hv]
  · intro a
    unfold getApplicationsHandlerApi
    rw [hv]
    simp [List.mem_filter]

/-- **C4** witness: a valid token for alice against a store holding one
application of bob and one of alice. -/
theorem applications_api_owner_only_witness :
    (getApplicationsHandlerApi "topsecret" 0
        (some ⟨"alice@example.com", 86400, "topsecret"⟩)
        [bobApplication, aliceApplication]).1 = 200 ∧
      (aliceApplication ∈
          (getApplicationsHandlerApi "topsecret" 0
            (some ⟨"alice@example.com", 86400, "topsecret"⟩)
            [bobApplication, aliceApplication]).2 ↔
        aliceApplication ∈ [bobApplication, aliceApplication] ∧
          aliceApplication.userEmail = "alice@example.com") :=
  ⟨(applications_api_owner_only "topsecret" 0 "alice@example.com" 86400
      [bobApplication, aliceApplication] (by decide)).1,
    (applications_api_owner_only "topsecret" 0 "alice@example.com" 86400
      [bobApplication, aliceApplication] (by decide)).2 aliceApplication⟩

/-- **C5**: the `verifyToken` middleware of `src/api/index.js` and
`part_000` halts with Unauthorized 401 exactly when no token cookie is
present, halts with Forbidden 403 when a token is present but its
signature does not verify or it is expired, and otherwise proceeds with
the decoded email claim attached; the two failure statuses are never
interchanged. -/
theorem verifyToken_status_partition (secret : String) (now : Nat)
    (cookie : Option Token) :
    (cookie = none → verifyTokenMiddleware secret now cookie = .halt 401) ∧
    (∀ t : Token, cookie = some t →
      (t.signedWith ≠ secret ∨ t.exp ≤ now) →
      verifyTokenMiddleware secret now cookie = .halt 403) ∧
    (∀ t : Token, cookie = some t → t.signedWith = secret → now < t.exp →
      verifyTokenMiddleware secret now cookie = .proceed t.email) := by
  refine ⟨?_, ?_, ?_⟩
  · rintro rfl; rfl
  · rintro t rfl hbad
    unfold verifyTokenMiddleware
    dsimp only
    rw [if_neg]
    rintro ⟨h1, h2⟩
    rcases hbad with h | h
    · exact h h1
    · omega
  · rintro t rfl h1 h2
    unfold verifyTokenMiddleware
    dsimp only
    rw [if_pos ⟨h1, h2⟩]

/-- **C5** witness: the three branches at concrete cookies — absent,
expired-or-wrong-key, and valid. -/
theorem verifyToken_status_partition_witness :
    verifyTokenMiddleware "topsecret" 99999 none = .halt 401 ∧
    verifyTokenMiddleware "topsecret" 99999 (some aliceToken) =
      .halt 403 ∧
    verifyTokenMiddleware "topsecret" 0 (some aliceToken) =
      .proceed "alice@example.com" :=
  ⟨(verifyToken_status_partition "topsecret" 99999 none).1 rfl,
    (verifyToken_status_partition "topsecret" 99999 (some aliceToken)).2.1
      aliceToken rfl (Or.inr (by decide)),
    (verifyToken_status_partition "topsecret" 0 (some aliceToken)).2.2
      aliceToken rfl rfl (by decide)⟩

/-- **C6**: `POST /jwt` of `src/api/index.js` and `part_000` with an
email in the body signs a token whose email claim is the posted email
and whose expiry is one day (86400 s) after issuance, and sets it as an
`httpOnly` cookie with a 24-hour (86 400 000 ms) `maxAge`; with no
email in the body it answers BadRequest 400 and sets no cookie. -/
theorem jwt_issue_contract (secret : String) (now : Nat) (email : String)
    (hne : email ≠ "") :
    postJwtHandler secret now (some email) =
      ⟨200, some (⟨email, now + oneDaySeconds, secret⟩,
        ⟨true, 24 * 60 * 60 * 1000⟩)⟩ ∧
    postJwtHandler secret now none = ⟨400, none⟩ := by
  constructor
  · unfold postJwtHandler
    dsimp only
    rw [if_neg hne]
  · rfl

/-- **C6** witness: issuance at time 1000 for `a@b.com`, and the
missing-email rejection. -/
theorem jwt_issue_contract_witness :
    postJwtHandler "topsecret" 1000 (some "a@b.com") =
      ⟨200, some (⟨"a@b.com", 1000 + oneDaySeconds, "topsecret"⟩,
        ⟨true, 24 * 60 * 60 * 1000⟩)⟩ ∧
    postJwtHandler "topsecret" 1000 none = ⟨400, none⟩ :=
  jwt_issue_contract "topsecret" 1000 "a@b.com" (by decide)

/-- **C7**: `connectToDatabase` of `src/index.js` (likewise
`part_005`) is idempotent: the first call opens one connection and
caches the volunteer, applications and users collection handles; any
state with the client handle set is a fixed point, so every later call
returns it unchanged — no new connection, no handle replaced — and any
number of chained calls equals a single one. -/
theorem connectToDatabase_idempotent :
    connectToDatabase initialDbState =
      ⟨some 0, some 0, some 0, some 0, 1⟩ ∧
    (∀ s : DbState, s.client.isSome → connectToDatabase s = s) ∧
    (∀ n : Nat, connectToDatabase^[n + 1] initialDbState =
      connectToDatabase initialDbState) := by
  refine ⟨rfl, connectToDatabase_fixed, ?_⟩
  intro n
  induction n with
  | zero => rfl
  | succ m ih =>
    rw [Function.iterate_succ_apply', ih,
      connectToDatabase_fixed _ (connectToDatabase_isSome _)]

/-- **C7** witness: the fixed-point conjunct applied to the state the
first call produces. -/
theorem connectToDatabase_idempotent_witness :
    connectToDatabase ⟨some 0, some 0, some 0, some 0, 1⟩ =
      ⟨some 0, some 0, some 0, some 0, 1⟩ :=
  connectToDatabase_idempotent.2.1 ⟨some 0, some 0, some 0, some 0, 1⟩
    (by decide)

/-- **C8**, counterexample.  The origin callback tests
`!origin || allowedOrigins.includes(origin)`, and `!origin` is true for
a present-but-empty `Origin` header as well as for an absent one: an
empty origin is outside the allow-list yet permitted. -/
theorem cors_empty_origin_permitted :
    corsOriginAllowed (some "") = true ∧
      allowedOrigins.contains "" = false := by
  refine ⟨by decide, by decide⟩

/-- **C8** (amended): the CORS origin decision of `src/index.js`
permits every request with no `Origin` header and every request whose
`Origin` is an empty string (both are JS-falsy), permits every origin
in the allow-list, and rejects every other origin: no non-empty origin
outside the allow-list is ever permitted. -/
theorem cors_allowlist_decision (o : String) :
    corsOriginAllowed none = true ∧
    (allowedOrigins.contains o = true →
      corsOriginAllowed (some o) = true) ∧
    (o ≠ "" → allowedOrigins.contains o = false →
      corsOriginAllowed (some o) = false) := by
  refine ⟨rfl, ?_, ?_⟩
  · intro h
    have hm : o ∈ allowedOrigins := by simpa using h
    simp [corsOriginAllowed, hm]
  · intro h1 h2
    have hm : o ∉ allowedOrigins := by simpa using h2
    simp [corsOriginAllowed, h1, hm]

/-- **C8** witness: an allow-listed origin is permitted and a foreign
origin is rejected. -/
theorem cors_allowlist_decision_witness :
    corsOriginAllowed none = true ∧
    corsOriginAllowed (some "http://localhost:3000") = true ∧
    corsOriginAllowed (some "https://evil.example") = false :=
  ⟨(cors_allowlist_decision "http://localhost:3000").1,
    (cors_allowlist_decision "http://localhost:3000").2.1 (by decide),
    (cors_allowlist_decision "https://evil.example").2.2 (by decide)
      (by decide)⟩

/-- **C9**, counterexample.  `GET /volunteer/:id` of
`src/unnamed/part_000` (one of the two implementations the claim is
about) has no id-format guard: on the malformed id `"bad"` the
`ObjectId` constructor throws and the handler answers 500, not
BadRequest 400. -/
theorem getVolunteerPart000_bad_id_500 :
    objectIdIsValid "bad" = false ∧
    getVolunteerHandlerPart000 [] "bad" = (500, none) ∧
    (getVolunteerHandlerPart000 [] "bad").1 ≠ 400 := by
  refine ⟨by decide, by decide, by decide⟩

/-- **C9** (amended): in the guarded variants (`src/index.js`
`GET /volunteer/:id`; likewise `src/api/index.js` and `part_005`), a
malformed id answers BadRequest 400, a well-formed id with no stored
record answers NotFound 404, and otherwise the stored post is returned
with 200; the unguarded variants (`part_000`, `part_002`, `part_003`)
answer 500 on a malformed id instead. -/
theorem getVolunteer_statuses (db : VolunteerStore) (id : String) :
    (objectIdIsValid id = false →
      getVolunteerHandler db id = (400, none)) ∧
    (objectIdIsValid id = true → findPost db id = none →
      getVolunteerHandler db id = (404, none)) ∧
    (∀ v : VolunteerPost, objectIdIsValid id = true →
      findPost db id = some v →
      getVolunteerHandler db id = (200, some v)) := by
  refine ⟨?_, ?_, ?_⟩
  · intro h
    simp [getVolunteerHandler, h]
  · intro h hnone
    simp [getVolunteerHandler, h, hnone]
  · intro v h hv
    simp [getVolunteerHandler, h, hv]

/-- **C9** witness: the three branches at a malformed id, an absent
well-formed id, and a stored post. -/
theorem getVolunteer_statuses_witness :
    getVolunteerHandler [(oid1, samplePost)] "bad" = (400, none) ∧
    getVolunteerHandler [(oid1, samplePost)] oid2 = (404, none) ∧
    getVolunteerHandler [(oid1, samplePost)] oid1 = (200, some samplePost) :=
  ⟨(getVolunteer_statuses [(oid1, samplePost)] "bad").1 (by decide),
    (getVolunteer_statuses [(oid1, samplePost)] oid2).2.1 (by decide)
      (by decide),
    (getVolunteer_statuses [(oid1, samplePost)] oid1).2.2 samplePost
      (by decide) (by decide)⟩

/-- **C10**: a PUT `/volunteer/:id` of `src/index.js` by the owner
succeeds with 200 and rewrites the stored record so that all seven
content fields equal exactly what the body supplied — a field the body
omits is written as the cleared value — while `organizerEmail` and
`createdAt` are kept from the stored record and the record stays under
its id: a full field replacement, not a merge. -/
theorem put_owner_full_replacement
    (now : Nat) (db : VolunteerStore) (id : String) (body : ReqBody)
    (post : VolunteerPost)
    (hid : objectIdIsValid id = true) (hfind : findPost db id = some post)
    (hne : post.organizerEmail ≠ "") :
    (putHandler now db id (some post.organizerEmail) body).1 = 200 ∧
    findPost (putHandler now db id (some post.organizerEmail) body).2 id =
      some { post with
        title := body.title
        description := body.description
        category := body.category
        location := body.location
        volunteersNeeded := body.volunteersNeeded
        deadline := body.deadline
        thumbnail := body.thumbnail
        updatedAt := now } := by
  have hbranch : putHandler now db id (some post.organizerEmail) body =
      (200, updateFirst db id fun p =>
        { p with
          title := body.title
          description := body.description
          category := body.category
          location := body.location
          volunteersNeeded := body.volunteersNeeded
          deadline := body.deadline
          thumbnail := body.thumbnail
          updatedAt := now }) := by
    simp [putHandler, hid, hne, hfind]
  rw [hbranch]
  refine ⟨rfl, ?_⟩
  rw [findPost_updateFirst, hfind]
  rfl

/-- **C10** witness: the owner rewrites `samplePost` with a body that
supplies no field at all; every content field comes back cleared while
`organizerEmail` and `createdAt` survive. -/
theorem put_owner_full_replacement_witness :
    (putHandler 9 [(oid1, samplePost)] oid1
        (some samplePost.organizerEmail) emptyBody).1 = 200 ∧
    findPost (putHandler 9 [(oid1, samplePost)] oid1
        (some samplePost.organizerEmail) emptyBody).2 oid1 =
      some { samplePost with
        title := none
        description := none
        category := none
        location := none
        volunteersNeeded := none
        deadline := none
        thumbnail := none
        updatedAt := 9 } :=
  put_owner_full_replacement 9 [(oid1, samplePost)] oid1 emptyBody
    samplePost (by decide) (by decide) (by decide)

end VolServer
